import Mathlib

/-!
Verification of the nexus-langgraph repository's model-resolver and
prompt-composition logic, shallowly embedded from the Python sources:
  - src/shared/config/llm_config.py   (model resolver: get_llm)
  - src/shared/prompts/react_prompt.py (prompt composer)
  - src/agents/dental/tools.py        (dental citation tool)
-/

namespace NexusLanggraph

/-! ### Embedding of src/shared/config/llm_config.py -/

/-- Model id constant from llm_config.py. -/
def CLAUDE_OPUS_4_5 : String := "claude-opus-4-5-20251101"

/-- Model id constant from llm_config.py. -/
def CLAUDE_SONNET_4_5 : String := "claude-sonnet-4-5-20250929"

/-- Model id constant from llm_config.py. -/
def GPT_5_2 : String := "gpt-5.2"

/-- Model id constant from llm_config.py. -/
def GPT_5_MINI : String := "gpt-5-mini"

/-- Model id constant from llm_config.py. -/
def GEMINI_3_PRO : String := "gemini-3-pro-preview"

/-- Model id constant from llm_config.py. -/
def GEMINI_3_FLASH : String := "gemini-3-flash-preview"

/-- The tier argument of get_llm: Python type Literal["pro", "flash"]. -/
inductive Tier where
  | pro
  | flash
deriving DecidableEq, Repr

/-- Python truthiness of an optional string (None and "" are falsy). -/
def strTruthy : Option String → Bool
  | none => false
  | some s => if s = "" then false else true

/-- The MODEL_TIERS dict of llm_config.py: for each provider key, the mapping
from tier key to model id.  Lookup returns none for providers outside the dict
(Python `prov in MODEL_TIERS` false / `MODEL_TIERS.get(prov, \x7b\x7d)` empty). -/
def MODEL_TIERS (prov : String) : Option (Tier → String) :=
  if prov = "anthropic" then
    some (fun t => match t with
      | Tier.pro => CLAUDE_OPUS_4_5
      | Tier.flash => CLAUDE_SONNET_4_5)
  else if prov = "openai" then
    some (fun t => match t with
      | Tier.pro => GPT_5_2
      | Tier.flash => GPT_5_MINI)
  else if prov = "gemini" then
    some (fun t => match t with
      | Tier.pro => GEMINI_3_PRO
      | Tier.flash => GEMINI_3_FLASH)
  else none

/-- Embeds the inner function get_model_for_provider of get_llm
(llm_config.py lines 83-89):
  if model: return model
  if tier and prov in MODEL_TIERS: return MODEL_TIERS[prov][tier]
  return MODEL_TIERS.get(prov, \x7b\x7d).get("flash", "") -/
def get_model_for_provider (model : Option String) (tier : Option Tier)
    (prov : String) : String :=
  if strTruthy model then model.getD ""
  else
    match tier, MODEL_TIERS prov with
    | some t, some entry => entry t
    | _, _ => ((MODEL_TIERS prov).map (fun entry => entry Tier.flash)).getD ""

/-- Presence of the three provider credential environment variables
(Python truthiness of os.getenv: unset or empty is false). -/
structure Env where
  anthropicKey : Bool
  openaiKey : Bool
  googleKey : Bool
deriving DecidableEq, Repr

/-- The thinking kwarg emitted for ChatAnthropic when enable_thinking is set:
\x7btype: "enabled", budget_tokens: max(1024, thinking_budget)\x7d. -/
structure AnthropicThinking where
  type : String
  budget_tokens : Int
deriving DecidableEq, Repr

/-- The chat-model object constructed by get_llm, one variant per provider
branch, carrying the kwargs this logic computes.  Floating-point kwargs
(temperature) carry no resolver logic and are omitted from the embedding. -/
inductive LLM where
  | chatAnthropic (model : String) (max_tokens : Nat)
      (thinking : Option AnthropicThinking)
  | chatOpenAI (model : String) (reasoning_effort : Option String)
  | chatGoogleGenerativeAI (model : String) (thinking_budget : Option Int)
      (include_thoughts : Option Bool)
deriving DecidableEq, Repr

/-- The ValueError message raised when no credential resolves. -/
def noKeyMsg : String :=
  "No LLM API key found. Set one of: ANTHROPIC_API_KEY, OPENAI_API_KEY, or GOOGLE_API_KEY"

/-- Embeds get_llm (llm_config.py lines 40-144).  Each Python block
`if provider == P or (not provider and os.getenv(KEY)):` followed by
`if api_key:` returns when its guard and the credential both hold and
otherwise falls through to the next block; the final statement raises. -/
def get_llm (model provider : Option String) (tier : Option Tier)
    (enable_thinking : Bool) (thinking_budget : Int) (env : Env) :
    Except String LLM :=
  if (provider = some "anthropic" ∨ (strTruthy provider = false ∧ env.anthropicKey = true))
      ∧ env.anthropicKey = true then
    Except.ok (LLM.chatAnthropic (get_model_for_provider model tier "anthropic") 10000
      (if enable_thinking then some ⟨"enabled", max 1024 thinking_budget⟩ else none))
  else if (provider = some "openai" ∨ (strTruthy provider = false ∧ env.openaiKey = true))
      ∧ env.openaiKey = true then
    Except.ok (LLM.chatOpenAI (get_model_for_provider model tier "openai")
      (if enable_thinking then some "high" else none))
  else if (provider = some "gemini" ∨ (strTruthy provider = false ∧ env.googleKey = true))
      ∧ env.googleKey = true then
    Except.ok (LLM.chatGoogleGenerativeAI (get_model_for_provider model tier "gemini")
      (if enable_thinking then some (if thinking_budget > 0 then thinking_budget else -1) else none)
      (if enable_thinking then some true else none))
  else
    Except.error noKeyMsg

/-- The provider a resolved chat model belongs to. -/
def llmProvider : LLM → String
  | LLM.chatAnthropic _ _ _ => "anthropic"
  | LLM.chatOpenAI _ _ => "openai"
  | LLM.chatGoogleGenerativeAI _ _ _ => "gemini"

/-- The model id carried by a resolved chat model. -/
def llmModel : LLM → String
  | LLM.chatAnthropic m _ _ => m
  | LLM.chatOpenAI m _ => m
  | LLM.chatGoogleGenerativeAI m _ _ => m

/-- The extended-thinking token budget carried by a resolved Anthropic
chat model, if any. -/
def llmThinkingBudget : LLM → Option Int
  | LLM.chatAnthropic _ _ (some t) => some t.budget_tokens
  | _ => none

end NexusLanggraph

namespace NexusLanggraph

/-! ### Resolver claims -/

/-- Claim C1: a call to get_llm with an explicit provider whose credential
environment variable is not set fails with the no-credential error, even when
the other providers' credentials are set; the resolver never substitutes a
different provider for an explicitly requested one. -/
theorem c1_explicit_provider_without_credential_errors
    (model : Option String) (tier : Option Tier) (et : Bool) (tb : Int) :
    (∀ b c : Bool,
      get_llm model (some "anthropic") tier et tb ⟨false, b, c⟩ = Except.error noKeyMsg)
    ∧ (∀ a c : Bool,
      get_llm model (some "openai") tier et tb ⟨a, false, c⟩ = Except.error noKeyMsg)
    ∧ (∀ a b : Bool,
      get_llm model (some "gemini") tier et tb ⟨a, b, false⟩ = Except.error noKeyMsg) := by
  refine ⟨fun b c => ?_, fun a c => ?_, fun a b => ?_⟩ <;>
    simp [get_llm, strTruthy]

/-- Claim C3: with no explicit provider, get_llm probes Anthropic, then OpenAI,
then Gemini, selecting the first provider whose credential is present, and
fails with the no-credential error when none is present. -/
theorem c3_auto_detection_priority_order
    (model : Option String) (tier : Option Tier) (et : Bool) (tb : Int) :
    (∀ b c : Bool, ∃ l, get_llm model none tier et tb ⟨true, b, c⟩ = Except.ok l
      ∧ llmProvider l = "anthropic")
    ∧ (∀ c : Bool, ∃ l, get_llm model none tier et tb ⟨false, true, c⟩ = Except.ok l
      ∧ llmProvider l = "openai")
    ∧ (∃ l, get_llm model none tier et tb ⟨false, false, true⟩ = Except.ok l
      ∧ llmProvider l = "gemini")
    ∧ get_llm model none tier et tb ⟨false, false, false⟩ = Except.error noKeyMsg := by
  refine ⟨fun b c => ?_, fun c => ?_, ?_, ?_⟩
  · exact ⟨LLM.chatAnthropic (get_model_for_provider model tier "anthropic") 10000
      (if et then some ⟨"enabled", max 1024 tb⟩ else none),
      by simp [get_llm, strTruthy], rfl⟩
  · exact ⟨LLM.chatOpenAI (get_model_for_provider model tier "openai")
      (if et then some "high" else none),
      by simp [get_llm, strTruthy], rfl⟩
  · exact ⟨LLM.chatGoogleGenerativeAI (get_model_for_provider model tier "gemini")
      (if et then some (if tb > 0 then tb else -1) else none)
      (if et then some true else none),
      by simp [get_llm, strTruthy], rfl⟩
  · simp [get_llm, strTruthy]

/-- Claim C4: when an explicit non-empty model identifier is supplied, the
resolved model id is that identifier verbatim, for every tier and provider
(the tier table is bypassed). -/
theorem c4_explicit_model_used_verbatim (m : String) (h : m ≠ "") (tier : Option Tier) :
    (∀ prov : String, get_model_for_provider (some m) tier prov = m)
    ∧ (∀ (et b c : Bool) (tb : Int), ∃ l,
        get_llm (some m) (some "anthropic") tier et tb ⟨true, b, c⟩ = Except.ok l
        ∧ llmModel l = m) := by
  constructor
  · intro prov
    simp [get_model_for_provider, strTruthy, h]
  · intro et b c tb
    refine ⟨LLM.chatAnthropic (get_model_for_provider (some m) tier "anthropic") 10000
      (if et then some ⟨"enabled", max 1024 tb⟩ else none),
      by simp [get_llm, strTruthy], ?_⟩
    simp [llmModel, get_model_for_provider, strTruthy, h]

/-- Witness for C4 at a concrete explicit model id. -/
theorem c4_explicit_model_used_verbatim_witness :
    get_model_for_provider (some "explicit-id") (some Tier.pro) "anthropic" = "explicit-id" :=
  (c4_explicit_model_used_verbatim "explicit-id" (by decide) (some Tier.pro)).1 "anthropic"

/-- Claim C5: for every (provider, tier) pair in \x7banthropic, openai, gemini\x7d ×
\x7bpro, flash\x7d, resolving with that provider and tier (no explicit model,
credential present) yields exactly the MODEL_TIERS entry for the pair, and an
absent tier falls back to the provider's flash entry. -/
theorem c5_tier_table_resolution :
    get_llm none (some "anthropic") (some Tier.pro) false 2048 ⟨true, true, true⟩
      = Except.ok (LLM.chatAnthropic CLAUDE_OPUS_4_5 10000 none)
    ∧ get_llm none (some "anthropic") (some Tier.flash) false 2048 ⟨true, true, true⟩
      = Except.ok (LLM.chatAnthropic CLAUDE_SONNET_4_5 10000 none)
    ∧ get_llm none (some "openai") (some Tier.pro) false 2048 ⟨true, true, true⟩
      = Except.ok (LLM.chatOpenAI GPT_5_2 none)
    ∧ get_llm none (some "openai") (some Tier.flash) false 2048 ⟨true, true, true⟩
      = Except.ok (LLM.chatOpenAI GPT_5_MINI none)
    ∧ get_llm none (some "gemini") (some Tier.pro) false 2048 ⟨true, true, true⟩
      = Except.ok (LLM.chatGoogleGenerativeAI GEMINI_3_PRO none none)
    ∧ get_llm none (some "gemini") (some Tier.flash) false 2048 ⟨true, true, true⟩
      = Except.ok (LLM.chatGoogleGenerativeAI GEMINI_3_FLASH none none)
    ∧ get_llm none (some "anthropic") none false 2048 ⟨true, true, true⟩
      = Except.ok (LLM.chatAnthropic CLAUDE_SONNET_4_5 10000 none)
    ∧ get_llm none (some "openai") none false 2048 ⟨true, true, true⟩
      = Except.ok (LLM.chatOpenAI GPT_5_MINI none)
    ∧ get_llm none (some "gemini") none false 2048 ⟨true, true, true⟩
      = Except.ok (LLM.chatGoogleGenerativeAI GEMINI_3_FLASH none none) :=
  ⟨rfl, rfl, rfl, rfl, rfl, rfl, rfl, rfl, rfl⟩

/-- Claim C6: resolving to Anthropic with enable_thinking true emits a thinking
configuration whose budget_tokens is max(1024, thinking_budget); in particular
thinking_budget = 500 yields budget_tokens 1024, not 500. -/
theorem c6_thinking_budget_floor
    (model : Option String) (tier : Option Tier) (tb : Int) (b c : Bool) :
    (∃ l, get_llm model (some "anthropic") tier true tb ⟨true, b, c⟩ = Except.ok l
      ∧ llmThinkingBudget l = some (max 1024 tb))
    ∧ (∃ l, get_llm model (some "anthropic") tier true 500 ⟨true, b, c⟩ = Except.ok l
      ∧ llmThinkingBudget l = some 1024 ∧ llmThinkingBudget l ≠ some 500) := by
  constructor
  · exact ⟨LLM.chatAnthropic (get_model_for_provider model tier "anthropic") 10000
      (some ⟨"enabled", max 1024 tb⟩),
      by simp [get_llm, strTruthy], rfl⟩
  · refine ⟨LLM.chatAnthropic (get_model_for_provider model tier "anthropic") 10000
      (some ⟨"enabled", max 1024 500⟩),
      by simp [get_llm, strTruthy], ?_, ?_⟩ <;>
      simp [llmThinkingBudget]

end NexusLanggraph

namespace NexusLanggraph

/-! ### Embedding of src/shared/prompts/react_prompt.py -/

/-- The NEXUS_TOOLS_SYSTEM_PROMPT constant of react_prompt.py. -/
def NEXUS_TOOLS_SYSTEM_PROMPT : String :=
  "<nexus_tools>\nFiles: grep_files(), glob_files(), read_file(), write_file()\n- Read file CANNOT read binary files (e.g. pdf, excel, doc, etc.) directly, you need to use the parsed path format to get the parsed markdown.\n- To get the markdown of a binary file, use the parsed path format: /path/to/file.ext -> /path/to/file_parsed.ext.md\n- E.g. /path/to/file.pdf -> /path/to/file_parsed.pdf.md, /path/to/file.xlsx -> /path/to/file_parsed.xlsx.md, /path/to/file.doc -> /path/to/file_parsed.doc.md, etc.\n\nSandbox(optional): python(), bash()\n- To access files inside Nexus, you MUST add prefix /mnt/nexus to the path.\n\nWorkflow: Search → Read → Analyze → Execute/Write\n\n</nexus_tools>\n"

/-- The GENERAL_AGENT_SYSTEM_PROMPT constant of react_prompt.py (an f-string
interpolating NEXUS_TOOLS_SYSTEM_PROMPT). -/
def GENERAL_AGENT_SYSTEM_PROMPT : String :=
  "You are a versatile AI assistant with access to a remote filesystem and code execution environment.\n\n"
  ++ NEXUS_TOOLS_SYSTEM_PROMPT
  ++ "\n\nYou help with coding, data analysis, research, and file operations.\n\nWorkflow:\n1. Search/explore before creating new solutions\n2. Use appropriate tools for the task\n3. Test and verify your work\n4. Provide clear explanations\n\nBe concise and action-oriented.\n"

/-- An assigned-skill descriptor from request metadata: a dict with optional
keys name, description, path (dict.get yields None when a key is absent). -/
structure AssignedSkill where
  name : Option String
  description : Option String
  path : Option String
deriving DecidableEq, Repr

/-- A skill record as consumed by the prompt builder: a dict with optional
keys name, description, file_path. -/
structure SkillData where
  name : Option String
  description : Option String
  file_path : Option String
deriving DecidableEq, Repr

/-- The conversion applied to assigned skills (react_prompt.py lines 74-79):
name and description are defaulted, path becomes file_path. -/
def assignedToSkillData (s : AssignedSkill) : SkillData :=
  ⟨some (s.name.getD "Unknown"), some (s.description.getD "No description"), s.path⟩

/-- The failure modes of the two remote discovery lookups (import failure and
the exceptions the `except` clauses of react_prompt.py absorb). -/
inductive DiscoverErr where
  | importFailure
  | networkError
  | missingCapability
  | missingAuthToken
deriving DecidableEq, Repr

/-- Concatenation of the prompt_lines lists built by react_prompt.py
("".join semantics). -/
def concatStrs : List String → String
  | [] => ""
  | s :: rest => s ++ concatStrs rest

/-- The per-skill lines appended in the loop of get_skills_prompt_async
(react_prompt.py lines 95-105). -/
def renderSkill (s : SkillData) : String :=
  "  <skill>\n"
  ++ "    <name>" ++ s.name.getD "Unknown" ++ "</name>\n"
  ++ "    <description>" ++ s.description.getD "No description" ++ "</description>\n"
  ++ (match s.file_path with
      | some fp => if fp = "" then "" else "    <file_path>" ++ fp ++ "</file_path>\n"
      | none => "")
  ++ "  </skill>\n"

/-- The skills section built from skills_data (react_prompt.py lines 88-109):
empty when no skills, otherwise a <skills> block. -/
def renderSkillsSection (skills_data : List SkillData) : String :=
  if skills_data = [] then ""
  else
    "\n\n<skills count=\"" ++ toString skills_data.length ++ "\">\n"
    ++ concatStrs (skills_data.map renderSkill)
    ++ "</skills>\n"

/-- Embeds get_skills_prompt_async (react_prompt.py lines 48-120).  The remote
skills_discover lookup is consulted only when assigned_skills is empty; any
exception it raises (and any import failure) is absorbed into "". -/
def get_skills_prompt (assigned_skills : List AssignedSkill)
    (discover : Except DiscoverErr (List SkillData)) : String :=
  if assigned_skills ≠ [] then
    renderSkillsSection (assigned_skills.map assignedToSkillData)
  else
    match discover with
    | Except.error _ => ""
    | Except.ok skills_data => renderSkillsSection skills_data

/-- A mount record returned by the list_connectors lookup: a dict with
optional keys mount_point, backend_type, readonly (readonly defaults False). -/
structure Mount where
  mount_point : Option String
  backend_type : Option String
  readonly : Bool
deriving DecidableEq, Repr

/-- The connector_backends allow-list of react_prompt.py lines 140-141. -/
def connector_backends : List String :=
  ["GmailConnectorBackend", "SlackConnectorBackend",
   "GDriveConnectorBackend", "XConnectorBackend"]

/-- The filter predicate of react_prompt.py lines 142-145:
mount.get("backend_type") in connector_backends (None is never in the list). -/
def isConnectorBackend (m : Mount) : Bool :=
  match m.backend_type with
  | some b => connector_backends.contains b
  | none => false

/-- The connector_info dict of react_prompt.py lines 153-158. -/
def connector_info (backend : String) : Option (String × String) :=
  if backend = "GmailConnectorBackend" then
    some ("Gmail", "Access your Gmail messages and threads")
  else if backend = "SlackConnectorBackend" then
    some ("Slack", "Access Slack channels, DMs, and messages")
  else if backend = "GDriveConnectorBackend" then
    some ("Google Drive", "Access Google Drive files and folders")
  else if backend = "XConnectorBackend" then
    some ("X (Twitter)", "Access X/Twitter posts and timeline")
  else none

/-- The per-connector lines appended in the loop of
get_connectors_prompt_async (react_prompt.py lines 162-179). -/
def renderConnector (conn : Mount) : String :=
  let mount_point := conn.mount_point.getD "Unknown"
  let backend_type := conn.backend_type.getD "Unknown"
  let nameDesc := (connector_info backend_type).getD
    (backend_type, "Third-party service integration")
  "  <connector>\n"
  ++ "    <name>" ++ nameDesc.1 ++ "</name>\n"
  ++ "    <description>" ++ nameDesc.2 ++ "</description>\n"
  ++ "    <mount_point>" ++ mount_point ++ "</mount_point>\n"
  ++ "    <backend_type>" ++ backend_type ++ "</backend_type>\n"
  ++ (if conn.readonly then "    <readonly>true</readonly>\n" else "")
  ++ "  </connector>\n"

/-- Embeds get_connectors_prompt_async (react_prompt.py lines 123-194): the
lookup result is filtered to the allow-list before formatting, and any lookup
failure is absorbed into "". -/
def get_connectors_prompt (conn_lookup : Except DiscoverErr (List Mount)) : String :=
  match conn_lookup with
  | Except.error _ => ""
  | Except.ok all_mounts =>
    let connectors_data := all_mounts.filter isConnectorBackend
    if connectors_data = [] then ""
    else
      "\n\n<connectors count=\"" ++ toString connectors_data.length ++ "\">\n"
      ++ concatStrs (connectors_data.map renderConnector)
      ++ "</connectors>\n"

/-- The request metadata fields consumed by get_system_prompt_async. -/
structure Metadata where
  assigned_skills : List AssignedSkill
  opened_file_path : Option String
  workspace_path : Option String
deriving DecidableEq, Repr

/-- The opened-file paragraph of get_system_prompt_async
(react_prompt.py lines 233-240). -/
def openedFileSection (p : String) : String :=
  "\n\n## Current Context\n\nThe user currently has the following file open in their editor:\n**"
  ++ p
  ++ "**\n\nWhen the user asks questions or requests changes without specifying a file, they are likely referring to this currently opened file. Use this context to provide more relevant and targeted assistance."

/-- The workspace paragraph of get_system_prompt_async
(react_prompt.py lines 248-253). -/
def workspaceSection (w : String) : String :=
  "\n\n<workspace_context>\n  <path>"
  ++ w
  ++ "</path>\n  <description>All file operations, code modifications, and project-related tasks should be performed within this workspace context. When the user references files or directories without absolute paths, they are relative to this workspace.</description>\n</workspace_context>"

/-- The opened-file contribution: present and truthy opened_file_path emits
the fixed paragraph, otherwise nothing. -/
def openedFilePart (opened_file_path : Option String) : String :=
  match opened_file_path with
  | some p => if p = "" then "" else openedFileSection p
  | none => ""

/-- The workspace contribution, symmetric to the opened-file one. -/
def workspacePart (workspace_path : Option String) : String :=
  match workspace_path with
  | some w => if w = "" then "" else workspaceSection w
  | none => ""

/-- Embeds get_system_prompt_async (react_prompt.py lines 197-255).  The role
argument is ignored by the source (only the general role is implemented).  The
two remote lookups are passed as arguments holding their observed outcome. -/
def get_system_prompt (config : Option Metadata)
    (skills_lookup : Except DiscoverErr (List SkillData))
    (conn_lookup : Except DiscoverErr (List Mount)) : String :=
  let base_prompt := GENERAL_AGENT_SYSTEM_PROMPT
  let skills_section :=
    match config with
    | none => ""
    | some md => get_skills_prompt md.assigned_skills skills_lookup
  let connectors_section :=
    match config with
    | none => ""
    | some _ => get_connectors_prompt conn_lookup
  let full1 := base_prompt ++ skills_section ++ connectors_section
  let full2 := full1 ++ (match config with
    | none => ""
    | some md => openedFilePart md.opened_file_path)
  full2 ++ (match config with
    | none => ""
    | some md => workspacePart md.workspace_path)

end NexusLanggraph

namespace NexusLanggraph

/-! ### Prompt-composition claims -/

/-- Each element of a list contributes its rendering as a contiguous block of
the concatenation. -/
theorem concatStrs_map_mem_isInfixData {α : Type} (f : α → String) (l : List α)
    (m : α) (h : m ∈ l) : (f m).data <:+: (concatStrs (l.map f)).data := by
  induction l with
  | nil => cases h
  | cons a t ih =>
    rcases List.mem_cons.mp h with rfl | hm
    · exact ⟨[], (concatStrs (t.map f)).data, by
        simp [concatStrs, String.data_append]⟩
    · obtain ⟨s, u, hsu⟩ := ih hm
      exact ⟨(f a).data ++ s, u, by
        simp [concatStrs, String.data_append, ← hsu]⟩

/-- An inner contiguous block stays contiguous after surrounding text is
appended on both sides. -/
theorem isInfixData_append (x : List Char) (pre mid post : String)
    (h : x <:+: mid.data) : x <:+: (pre ++ mid ++ post).data := by
  obtain ⟨s, u, hsu⟩ := h
  exact ⟨pre.data ++ s, u ++ post.data, by
    simp [String.data_append, ← hsu]⟩

/-- Claim C2 counterexample: a connector returned by the lookup whose backend
kind is outside the allow-list is dropped from the composed connectors section
(the section is empty, so the connector does not appear in it), contradicting
the claim that every returned connector appears with a generic fallback label. -/
theorem c2_counterexample_unrecognized_backend_dropped :
    get_connectors_prompt
        (Except.ok [⟨some "/mnt/local", some "LocalBackend", false⟩]) = ""
    ∧ ¬ ("LocalBackend".data <:+:
        (get_connectors_prompt
          (Except.ok [⟨some "/mnt/local", some "LocalBackend", false⟩])).data) := by
  refine ⟨rfl, ?_⟩
  intro hinf
  have hmem : 'L' ∈ (get_connectors_prompt
      (Except.ok [⟨some "/mnt/local", some "LocalBackend", false⟩])).data :=
    hinf.subset (by decide)
  revert hmem
  decide

/-- Claim C2 amended: connectors whose backend kind is not in the allow-list
are filtered out before formatting and do not appear in the composed section
(adding one to the lookup result leaves the section unchanged); every
allow-listed connector the lookup returns does appear in the section. -/
theorem c2_amended_only_allowlisted_connectors_rendered (mounts : List Mount) :
    get_connectors_prompt (Except.ok mounts)
      = get_connectors_prompt (Except.ok (mounts.filter isConnectorBackend))
    ∧ (∀ m : Mount, isConnectorBackend m = false →
        get_connectors_prompt (Except.ok (m :: mounts))
          = get_connectors_prompt (Except.ok mounts))
    ∧ (∀ m : Mount, m ∈ mounts → isConnectorBackend m = true →
        (renderConnector m).data <:+:
          (get_connectors_prompt (Except.ok mounts)).data) := by
  refine ⟨?_, fun m hm => ?_, fun m hmem hall => ?_⟩
  · simp [get_connectors_prompt, List.filter_filter]
  · simp [get_connectors_prompt, List.filter_cons, hm]
  · have hmemf : m ∈ mounts.filter isConnectorBackend :=
      List.mem_filter.mpr ⟨hmem, hall⟩
    have hne : mounts.filter isConnectorBackend ≠ [] := by
      intro h0
      rw [h0] at hmemf
      cases hmemf
    simp only [get_connectors_prompt, if_neg hne]
    exact isInfixData_append _ _ _ _
      (concatStrs_map_mem_isInfixData renderConnector _ m hmemf)

/-- Witness for the amended C2 at concrete inputs: an unrecognized backend
leaves the section unchanged, and an allow-listed one appears in it. -/
theorem c2_amended_only_allowlisted_connectors_rendered_witness :
    get_connectors_prompt
        (Except.ok [(⟨some "/mnt/local", some "LocalBackend", false⟩ : Mount),
          (⟨some "/mnt/gmail", some "GmailConnectorBackend", false⟩ : Mount)])
      = get_connectors_prompt
        (Except.ok [(⟨some "/mnt/gmail", some "GmailConnectorBackend", false⟩ : Mount)])
    ∧ (renderConnector ⟨some "/mnt/gmail", some "GmailConnectorBackend", false⟩).data <:+:
        (get_connectors_prompt
          (Except.ok [(⟨some "/mnt/gmail", some "GmailConnectorBackend", false⟩ : Mount)])).data :=
  ⟨(c2_amended_only_allowlisted_connectors_rendered
      [⟨some "/mnt/gmail", some "GmailConnectorBackend", false⟩]).2.1
      ⟨some "/mnt/local", some "LocalBackend", false⟩ rfl,
   (c2_amended_only_allowlisted_connectors_rendered
      [⟨some "/mnt/gmail", some "GmailConnectorBackend", false⟩]).2.2
      ⟨some "/mnt/gmail", some "GmailConnectorBackend", false⟩ (by simp) rfl⟩

set_option maxRecDepth 8192 in
/-- Claim C7: a failure of the skills-discovery or connectors-discovery lookup
is absorbed: the failing section is the empty string, the other sections are
unaffected (the composed prompt equals the concatenation of the remaining
sections), and the composition still starts with the non-empty base section. -/
theorem c7_lookup_failures_degrade_to_empty_sections
    (e e2 : DiscoverErr) (ofp wsp : Option String)
    (skillsRes : Except DiscoverErr (List SkillData))
    (connRes : Except DiscoverErr (List Mount)) :
    get_skills_prompt [] (Except.error e) = ""
    ∧ get_connectors_prompt (Except.error e2) = ""
    ∧ get_system_prompt (some ⟨[], ofp, wsp⟩) (Except.error e) connRes
        = GENERAL_AGENT_SYSTEM_PROMPT ++ get_connectors_prompt connRes
          ++ openedFilePart ofp ++ workspacePart wsp
    ∧ get_system_prompt (some ⟨[], ofp, wsp⟩) skillsRes (Except.error e2)
        = GENERAL_AGENT_SYSTEM_PROMPT ++ get_skills_prompt [] skillsRes
          ++ openedFilePart ofp ++ workspacePart wsp
    ∧ get_system_prompt (some ⟨[], ofp, wsp⟩) (Except.error e) (Except.error e2)
        = GENERAL_AGENT_SYSTEM_PROMPT ++ openedFilePart ofp ++ workspacePart wsp
    ∧ GENERAL_AGENT_SYSTEM_PROMPT ≠ "" := by
  refine ⟨rfl, rfl, ?_, ?_, ?_, ?_⟩
  · simp [get_system_prompt, get_skills_prompt, String.append_assoc]
  · simp [get_system_prompt, get_connectors_prompt, String.append_assoc]
  · simp [get_system_prompt, get_skills_prompt, get_connectors_prompt, String.append_assoc]
  · decide

set_option maxRecDepth 8192 in
/-- Claim C8: with opened_file_path absent (or empty, which Python treats as
absent) the composed prompt is exactly the concatenation of the other sections
— no opened-file fragment, not even an empty heading, and in particular the
fully-degraded composition does not contain the opened-file heading text —
while a present opened_file_path appends the fixed paragraph naming that path. -/
theorem c8_opened_file_section_only_when_present
    (assigned : List AssignedSkill) (wsp : Option String)
    (skillsRes : Except DiscoverErr (List SkillData))
    (connRes : Except DiscoverErr (List Mount)) :
    (get_system_prompt (some ⟨assigned, none, wsp⟩) skillsRes connRes
      = GENERAL_AGENT_SYSTEM_PROMPT ++ get_skills_prompt assigned skillsRes
        ++ get_connectors_prompt connRes ++ workspacePart wsp)
    ∧ (∀ p : String, get_system_prompt (some ⟨assigned, some p, wsp⟩) skillsRes connRes
      = GENERAL_AGENT_SYSTEM_PROMPT ++ get_skills_prompt assigned skillsRes
        ++ get_connectors_prompt connRes
        ++ (if p = "" then "" else openedFileSection p) ++ workspacePart wsp)
    ∧ (∀ p : String, ∃ pre suf : String, openedFileSection p = pre ++ p ++ suf)
    ∧ ¬ ("## Current Context".data <:+:
        (get_system_prompt (some ⟨[], none, none⟩)
          (Except.ok []) (Except.ok [])).data) := by
  refine ⟨?_, fun p => ?_, fun p => ?_, ?_⟩
  · simp [get_system_prompt, openedFilePart, String.append_assoc]
  · simp [get_system_prompt, openedFilePart, String.append_assoc]
  · exact ⟨"\n\n## Current Context\n\nThe user currently has the following file open in their editor:\n**",
      "**\n\nWhen the user asks questions or requests changes without specifying a file, they are likely referring to this currently opened file. Use this context to provide more relevant and targeted assistance.",
      rfl⟩
  · have hfull : get_system_prompt (some ⟨[], none, none⟩)
        (Except.ok []) (Except.ok []) = GENERAL_AGENT_SYSTEM_PROMPT := by
      simp [get_system_prompt, get_skills_prompt, renderSkillsSection,
        get_connectors_prompt, openedFilePart, workspacePart]
    rw [hfull]
    intro hinf
    have hmem : '#' ∈ GENERAL_AGENT_SYSTEM_PROMPT.data := hinf.subset (by decide)
    revert hmem
    decide

end NexusLanggraph

namespace NexusLanggraph

/-! ### Embedding of src/agents/dental/tools.py -/

/-- A search result from the web-search provider: a dict with optional keys
url and title. -/
structure TavilyResult where
  url : Option String
  title : Option String
deriving DecidableEq, Repr

/-- The provider response consumed by the tool: response.get("results", []). -/
structure TavilyResponse where
  results : List TavilyResult
deriving DecidableEq, Repr

/-- A provider-side failure (any exception raised by client.search). -/
inductive SearchErr where
  | providerError
deriving DecidableEq, Repr

/-- The keyword-search request issued by _search_tavily (tools.py lines 27-32). -/
structure SearchRequest where
  query : String
  search_depth : String
  max_results : Nat
  include_answer : Bool
deriving DecidableEq, Repr

/-- Python str.split(sep) for a one-character separator, on the character
list of the string ("".split yields [""], separators at the ends yield empty
parts). -/
def splitOnChar (sep : Char) : List Char → List (List Char)
  | [] => [[]]
  | c :: rest =>
    let r := splitOnChar sep rest
    if c = sep then [] :: r
    else
      match r with
      | [] => [[c]]
      | w :: ws => (c :: w) :: ws

/-- Python str.replace(pat, rep) on character lists, with a fuel argument for
structural recursion: replace every non-overlapping occurrence of pat,
scanning left to right.  One fuel unit is spent per step and every step
consumes at least one character (pat is never empty at the call sites of
tools.py), so fuel equal to the input length never runs out. -/
def replaceAllAux (pat rep : List Char) : Nat → List Char → List Char
  | _, [] => []
  | 0, l => l
  | fuel + 1, c :: rest =>
    if pat ≠ [] ∧ pat.isPrefixOf (c :: rest) then
      rep ++ replaceAllAux pat rep fuel ((c :: rest).drop pat.length)
    else
      c :: replaceAllAux pat rep fuel rest

/-- Python str.replace(pat, rep) on character lists. -/
def replaceAll (pat rep l : List Char) : List Char :=
  replaceAllAux pat rep l.length l

/-- Python str.title() for ASCII text: each alphabetic character is
uppercased when the previous character is not alphabetic and lowercased
otherwise. -/
def titlecase : Bool → List Char → List Char
  | _, [] => []
  | prevAlpha, c :: rest =>
    if c.isAlpha then
      (if prevAlpha then c.toLower else c.toUpper) :: titlecase true rest
    else
      c :: titlecase false rest

/-- The domain extraction of tools.py line 38:
`url.split("/")[2] if url and "/" in url else "Web Source"`; the index access
raises IndexError (none) when the split has fewer than three parts. -/
def domainOf (url : String) : Option String :=
  if url ≠ "" ∧ url.data.contains '/' then
    ((splitOnChar '/' url.data).get? 2).map (fun l => String.mk l)
  else some "Web Source"

/-- The publication label of tools.py lines 40-42: strip "www.", ".com",
".org", ".gov" (str.replace applied in that order) and title-case. -/
def publicationOf (url : String) : Option String :=
  (domainOf url).map (fun domain =>
    String.mk (titlecase false
      (replaceAll ".gov".data []
        (replaceAll ".org".data []
          (replaceAll ".com".data []
            (replaceAll "www.".data [] domain.data))))))

/-- A citation dict as built by tools.py lines 44-51. -/
structure Citation where
  id : String
  marker : String
  title : String
  publication : String
  year : Nat
  url : String
deriving DecidableEq, Repr

/-- The citation-building loop of tools.py lines 34-51, with enumerate
starting index i; none models an IndexError escaping the loop (absorbed by
the caller's except clause). -/
def buildCitations : Nat → List TavilyResult → Option (List Citation)
  | _, [] => some []
  | i, r :: rest => do
    let url := r.url.getD ""
    let pub ← publicationOf url
    let tail ← buildCitations (i + 1) rest
    pure (⟨"cite-" ++ toString i, "[" ++ toString i ++ "]",
      r.title.getD "Untitled", pub, 2024, url⟩ :: tail)

/-- Embeds _search_tavily (tools.py lines 12-57).  The provider client is a
parameter; a missing credential or any exception (provider failure or
IndexError in the loop) yields the empty citation list. -/
def search_tavily (api_key_present : Bool)
    (client_search : SearchRequest → Except SearchErr TavilyResponse)
    (query : String) : List Citation :=
  if api_key_present = false then []
  else
    let search_query := "dental dentistry " ++ query
    match client_search ⟨search_query, "basic", 5, false⟩ with
    | Except.error _ => []
    | Except.ok response =>
      match buildCitations 1 response.results with
      | none => []
      | some citations => if citations = [] then [] else citations

end NexusLanggraph

namespace NexusLanggraph

/-! ### Dental citation tool claims -/

/-- The citation-building loop yields one citation per result, with id
"cite-i", marker "[i]" and year 2024 at 1-based position i counted from the
enumerate start. -/
theorem buildCitations_spec (rs : List TavilyResult) :
    ∀ (start : Nat) (cs : List Citation), buildCitations start rs = some cs →
    cs.length = rs.length ∧ ∀ i (hi : i < cs.length),
      (cs.get ⟨i, hi⟩).id = "cite-" ++ toString (start + i)
      ∧ (cs.get ⟨i, hi⟩).marker = "[" ++ toString (start + i) ++ "]"
      ∧ (cs.get ⟨i, hi⟩).year = 2024 := by
  induction rs with
  | nil =>
    intro start cs h
    simp only [buildCitations, Option.some.injEq] at h
    subst h
    simp
  | cons r t ih =>
    intro start cs h
    rcases hpub : publicationOf (r.url.getD "") with _ | pub
    · simp [buildCitations, hpub] at h
    · rcases htail : buildCitations (start + 1) t with _ | tail
      · simp [buildCitations, hpub, htail] at h
      · simp only [buildCitations, hpub, htail, Option.bind_eq_bind, Option.some_bind,
          Option.pure_def, Option.some.injEq] at h
        subst h
        obtain ⟨hlen, hspec⟩ := ih (start + 1) tail htail
        refine ⟨by simp [hlen], ?_⟩
        intro i hi
        cases i with
        | zero => simp
        | succ j =>
          have hj : j < tail.length := by
            simp at hi
            omega
          obtain ⟨h1, h2, h3⟩ := hspec j hj
          have harith : start + 1 + j = start + (j + 1) := by omega
          rw [harith] at h1 h2
          exact ⟨h1, h2, h3⟩

/-- The tool result is either empty or exactly the citations built from a
successful response to the max_results = 5 request the tool issues. -/
theorem search_tavily_shape (key : Bool)
    (f : SearchRequest → Except SearchErr TavilyResponse) (q : String) :
    search_tavily key f q = []
    ∨ ∃ resp, f ⟨"dental dentistry " ++ q, "basic", 5, false⟩ = Except.ok resp
        ∧ buildCitations 1 resp.results = some (search_tavily key f q) := by
  rw [search_tavily]
  split
  · exact Or.inl rfl
  · rcases hf : f ⟨"dental dentistry " ++ q, "basic", 5, false⟩ with e | response
    · simp [hf]
    · simp only [hf]
      rcases hb : buildCitations 1 response.results with _ | citations
      · simp [hb]
      · simp only [hb]
        split
        · exact Or.inl rfl
        · exact Or.inr ⟨response, rfl, hb⟩

set_option maxRecDepth 8192 in
/-- Claim C9: the dental citation tool assigns sequential markers in result
order ([1][2][3] for a 3-result response), year 2024 for every citation, and
derives the publication label by stripping the www. and TLD parts of the URL
host and title-casing, so https://www.ada.org/path yields Ada; on a missing
credential or provider error it returns the empty citation list. -/
theorem c9_sequential_markers_year_publication
    (key : Bool) (f : SearchRequest → Except SearchErr TavilyResponse) (q : String) :
    (∀ i (hi : i < (search_tavily key f q).length),
      ((search_tavily key f q).get ⟨i, hi⟩).marker = "[" ++ toString (i + 1) ++ "]"
      ∧ ((search_tavily key f q).get ⟨i, hi⟩).year = 2024)
    ∧ search_tavily true (fun _ => Except.ok ⟨[⟨some "https://www.ada.org/path", some "T1"⟩,
        ⟨some "https://www.ada.org/b", some "T2"⟩, ⟨some "https://www.ada.org/c", some "T3"⟩]⟩) "q"
      = [⟨"cite-1", "[1]", "T1", "Ada", 2024, "https://www.ada.org/path"⟩,
         ⟨"cite-2", "[2]", "T2", "Ada", 2024, "https://www.ada.org/b"⟩,
         ⟨"cite-3", "[3]", "T3", "Ada", 2024, "https://www.ada.org/c"⟩]
    ∧ publicationOf "https://www.ada.org/path" = some "Ada"
    ∧ (∀ (g : SearchRequest → Except SearchErr TavilyResponse) (p : String),
        search_tavily false g p = [])
    ∧ (∀ (b : Bool) (p : String),
        search_tavily b (fun _ => Except.error SearchErr.providerError) p = []) := by
  refine ⟨?_, by decide, by decide, fun g p => rfl, fun b p => ?_⟩
  · intro i hi
    rcases search_tavily_shape key f q with hempty | ⟨resp, _, hb⟩
    · rw [hempty] at hi
      cases hi
    · obtain ⟨_, hspec⟩ := buildCitations_spec resp.results 1 _ hb
      obtain ⟨_, h2, h3⟩ := hspec i hi
      rw [Nat.add_comm 1 i] at h2
      exact ⟨h2, h3⟩
  · rw [search_tavily]
    cases b <;> rfl

set_option maxRecDepth 8192 in
/-- Witness for C9 at a concrete one-result response. -/
theorem c9_sequential_markers_year_publication_witness :
    0 < (search_tavily true
        (fun _ => Except.ok ⟨[⟨some "https://www.ada.org/path", some "T1"⟩]⟩) "q").length
    ∧ ((search_tavily true
        (fun _ => Except.ok ⟨[⟨some "https://www.ada.org/path", some "T1"⟩]⟩) "q").get
        ⟨0, by decide⟩).marker = "[1]"
    ∧ ((search_tavily true
        (fun _ => Except.ok ⟨[⟨some "https://www.ada.org/path", some "T1"⟩]⟩) "q").get
        ⟨0, by decide⟩).year = 2024 := by
  refine ⟨by decide, ?_, ?_⟩
  · exact ((c9_sequential_markers_year_publication true
      (fun _ => Except.ok ⟨[⟨some "https://www.ada.org/path", some "T1"⟩]⟩) "q").1
      0 (by decide)).1
  · exact ((c9_sequential_markers_year_publication true
      (fun _ => Except.ok ⟨[⟨some "https://www.ada.org/path", some "T1"⟩]⟩) "q").1
      0 (by decide)).2

/-- Claim C10: when the provider honors the max_results cap of the request
(the tool asks for at most 5 results), the tool returns at most 5 citations,
and the i-th citation carries id "cite-i" matching its marker "[i]". -/
theorem c10_result_cap_and_id_marker_correspondence
    (key : Bool) (f : SearchRequest → Except SearchErr TavilyResponse) (q : String)
    (hcap : ∀ req resp, f req = Except.ok resp → resp.results.length ≤ req.max_results) :
    (search_tavily key f q).length ≤ 5
    ∧ (∀ i (hi : i < (search_tavily key f q).length),
        ((search_tavily key f q).get ⟨i, hi⟩).id = "cite-" ++ toString (i + 1)
        ∧ ((search_tavily key f q).get ⟨i, hi⟩).marker = "[" ++ toString (i + 1) ++ "]") := by
  rcases search_tavily_shape key f q with hempty | ⟨resp, hok, hb⟩
  · rw [hempty]
    exact ⟨by simp, fun i hi => by cases hi⟩
  · obtain ⟨hlen, hspec⟩ := buildCitations_spec resp.results 1 _ hb
    constructor
    · rw [hlen]
      exact hcap _ _ hok
    · intro i hi
      obtain ⟨h1, h2, _⟩ := hspec i hi
      rw [Nat.add_comm 1 i] at h1 h2
      exact ⟨h1, h2⟩

/-- Witness for C10 with a provider that honors the cap. -/
theorem c10_result_cap_and_id_marker_correspondence_witness :
    (search_tavily true (fun _ => Except.ok ⟨[]⟩) "oral care").length ≤ 5 :=
  (c10_result_cap_and_id_marker_correspondence true (fun _ => Except.ok ⟨[]⟩) "oral care"
    (by
      intro req resp h
      simp only [Except.ok.injEq] at h
      subst h
      simp)).1

end NexusLanggraph
